import Mathlib

/-!
Verification development for the system-info MCP server (`src/index.js`).

The JavaScript source is shallowly embedded: each handler becomes a pure Lean
function over explicit inputs standing for the data the process obtains from
the outside world (the `systeminformation` library, shelled-out platform
commands, `os` module values).  A shell command or library call that can fail
is passed in as an `ExecResult`; its `failed` case stands for a rejected
promise (non-zero exit, timeout, thrown exception).  JavaScript string
builtins (`includes`, `split`, `trim`, `match`) are modelled by structural
functions over character lists so that all definitions compute by kernel
reduction.
-/

namespace SystemInfoServer

/-- Whitespace test modelling the JS `\s` character class (on the characters
that can occur in the command outputs handled here). -/
def isWsChar (c : Char) : Bool :=
  c == ' ' || c == '\t' || c == '\n' || c == '\r' || c == '\x0b' || c == '\x0c'

/-- Models `needle` being a prefix of `hay` (character lists). -/
def isPrefixOfL : List Char → List Char → Bool
  | [], _ => true
  | _ :: _, [] => false
  | a :: as, b :: bs => a == b && isPrefixOfL as bs

/-- Models JS `hay.includes(needle)` on character lists. -/
def isInfixOfL (needle : List Char) (hay : List Char) : Bool :=
  match hay with
  | [] => needle.isEmpty
  | _ :: tl => isPrefixOfL needle hay || isInfixOfL needle tl

/-- Models JS `s.includes(pat)`. -/
def strContains (s pat : String) : Bool :=
  isInfixOfL pat.data s.data

/-- Models JS `s.trim()` (both ends, whitespace as in `isWsChar`). -/
def trimChars (l : List Char) : List Char :=
  ((l.dropWhile isWsChar).reverse.dropWhile isWsChar).reverse

/-- Models JS `s.split(sep)` for a single-character separator `sep`
(as used for splitting command output into lines on a newline). -/
def splitCharAux (sep : Char) : List Char → List Char → List (List Char)
  | [], acc => [acc.reverse]
  | c :: cs, acc =>
    if c == sep then acc.reverse :: splitCharAux sep cs []
    else splitCharAux sep cs (c :: acc)

/-- Split a character list on a separator character, JS `split` semantics. -/
def splitChar (sep : Char) (l : List Char) : List (List Char) :=
  splitCharAux sep l []

/-- Models element 0 of JS `s.split(sep)` for the multi-character separator
`s0 :: srest`: the characters before the first occurrence of the separator
(the whole list when the separator does not occur). -/
def beforeFirst (s0 : Char) (srest : List Char) : List Char → List Char
  | [] => []
  | c :: cs =>
    if c == s0 && isPrefixOfL srest cs then []
    else c :: beforeFirst s0 srest cs

/-- Models the remainder after the first occurrence of the separator
`s0 :: srest`, `none` when the separator does not occur. -/
def afterFirst (s0 : Char) (srest : List Char) : List Char → Option (List Char)
  | [] => none
  | c :: cs =>
    if c == s0 && isPrefixOfL srest cs then some (cs.drop srest.length)
    else afterFirst s0 srest cs

/-- Models element 0 of JS `line.split(/\s+/)`: the empty string when the
line is empty or starts with whitespace (the regex split emits a leading
empty element then), otherwise the first maximal run of non-whitespace
characters. -/
def jsSplitWsHead (line : List Char) : List Char :=
  match line with
  | [] => []
  | c :: _ => if isWsChar c then [] else line.takeWhile (fun d => !isWsChar d)

/-- Try to match the regex `(\d+)x(\d+)` anchored at the head of the list,
greedy digit runs, returning the two digit groups. -/
def tryResHere (l : List Char) : Option (List Char × List Char) :=
  let w := l.takeWhile Char.isDigit
  let rest := l.dropWhile Char.isDigit
  if w.isEmpty then none
  else
    match rest with
    | 'x' :: rest2 =>
      let h := rest2.takeWhile Char.isDigit
      if h.isEmpty then none else some (w, h)
    | _ => none

/-- Models JS `line.match(/(\d+)x(\d+)/)`: the leftmost match, returning the
two captured digit groups. -/
def findResolution : List Char → Option (List Char × List Char)
  | [] => none
  | c :: cs =>
    match tryResHere (c :: cs) with
    | some r => some r
    | none => findResolution cs

/-- Result of a shell command or library call that may fail: `failed` stands
for a rejected promise (non-zero exit, timeout, thrown exception, or a JSON
parse error raised inside the same `try` block). -/
inductive ExecResult (α : Type) where
  | ok (v : α)
  | failed (msg : String)
deriving DecidableEq

/-- A JS value that is either a number or a string, as produced for the
`width`/`height` fields (`display.resolutionX || 'Unknown'`). -/
inductive NumOrStr where
  | num (n : Nat)
  | str (s : String)
deriving DecidableEq

/-- One monitor record as built by `getMonitorInfo` and its helpers.  JS
objects carry only the keys their strategy sets; a key a strategy does not
set is modelled as `none`. -/
structure MonitorRec where
  id : Nat
  name : String
  width : NumOrStr
  height : NumOrStr
  vendor : Option String := none
  main : Option Bool := none
  builtin : Option Bool := none
  instanceName : Option String := none
  physical_width_cm : Option Int := none
  physical_height_cm : Option Int := none
  retina : Option Bool := none
  is_primary : Option Bool := none
  detection_method : String
  note : Option String := none
deriving DecidableEq

/-- One display as reported by the `systeminformation` graphics query
(`si.graphics()`).  A missing/empty `model` or `vendor` is modelled by `""`
and a missing/zero resolution by `0`, matching the JS falsiness tests
`display.model || ...`, `display.resolutionX || 'Unknown'`. -/
structure SiDisplay where
  model : String
  vendor : String
  resolutionX : Nat
  resolutionY : Nat
  main : Bool
  builtin : Bool
deriving DecidableEq

/-- Record built from one `si.graphics()` display (index 0-based), lines
406-415 of `src/index.js`. -/
def siDisplayRecord (index : Nat) (display : SiDisplay) : MonitorRec :=
  { id := index + 1
    name := if display.model = "" then "Display " ++ toString (index + 1) else display.model
    vendor := some (if display.vendor = "" then "Unknown" else display.vendor)
    width := if display.resolutionX = 0 then .str "Unknown" else .num display.resolutionX
    height := if display.resolutionY = 0 then .str "Unknown" else .num display.resolutionY
    main := some display.main
    builtin := some display.builtin
    detection_method := "systeminformation" }

/-- One parsed WMI monitor object from the PowerShell JSON output.
`InstanceName = ""` models a missing/falsy `InstanceName`; the physical size
fields are passed through unchanged, so a missing field is `none`. -/
structure WmiMonitor where
  InstanceName : String
  MaxHorizontalImageSize : Option Int
  MaxVerticalImageSize : Option Int
deriving DecidableEq

/-- The JSON value parsed from the PowerShell output: `ConvertTo-Json` emits
a single object for one monitor and an array for several; the source wraps a
non-array into a one-element array. -/
inductive WmiParsed where
  | single (m : WmiMonitor)
  | arr (l : List WmiMonitor)
deriving DecidableEq

/-- Record built for one WMI monitor (index 0-based), lines 466-477. -/
def wmiMonitorRecord (index : Nat) (monitor : WmiMonitor) : MonitorRec :=
  { id := index + 1
    name := "Monitor " ++ toString (index + 1)
    width := .str "Unknown"
    height := .str "Unknown"
    instanceName := some (if monitor.InstanceName = "" then "Unknown" else monitor.InstanceName)
    physical_width_cm := monitor.MaxHorizontalImageSize
    physical_height_cm := monitor.MaxVerticalImageSize
    detection_method := "wmi" }

/-- Windows strategy `_getWindowsMonitors`, lines 454-483.  The input is the
outcome of running the PowerShell command and `JSON.parse` on its output:
`failed` covers a command error/timeout and a parse error (both land in the
same `catch`, returning the empty list), `ok none` covers a stdout that is
empty after `trim()` (the `if (stdout.trim())` guard), and `ok (some p)` the
parsed value. -/
def _getWindowsMonitors (execOut : ExecResult (Option WmiParsed)) : List MonitorRec :=
  match execOut with
  | .failed _ => []
  | .ok none => []
  | .ok (some parsed) =>
    let data := match parsed with
      | .single m => [m]
      | .arr l => l
    data.mapIdx wmiMonitorRecord

/-- One monitor object inside `spdisplays_ndrvs` of the parsed
`system_profiler` JSON.  `""` models a missing `_spdisplays_resolution`
(the source defaults it with `|| ''`) and a missing/falsy `_name`. -/
structure MacMonitor where
  _spdisplays_resolution : String
  _name : String
deriving DecidableEq

/-- One display adapter entry of the parsed `system_profiler` JSON; the
source defaults a missing `spdisplays_ndrvs` with `|| []`. -/
structure MacDisplay where
  spdisplays_ndrvs : List MacMonitor
deriving DecidableEq

/-- Resolution parsing of the macOS strategy, lines 496-508: when the string
contains `" x "`, width is element 0 of `resolution.split(' x ')` trimmed,
and height is element 0 of `parts[1].split(' ')`; otherwise both stay
`"Unknown"`. -/
def parseMacResolution (resolution : String) : String × String :=
  if strContains resolution " x " then
    let part0 := beforeFirst ' ' ['x', ' '] resolution.data
    let part1 := (afterFirst ' ' ['x', ' '] resolution.data).getD []
    (String.mk (trimChars part0), String.mk (part1.takeWhile (fun c => !(c == ' '))))
  else ("Unknown", "Unknown")

/-- Record built for one macOS monitor, lines 510-517.  The JS object
literal evaluates `id: monitorId++` first — so `id` receives the old counter
value and the counter is incremented — and only then evaluates
`name: monitor._name || \x60Monitor $\x7bmonitorId\x7d\x60`, which therefore
sees the incremented counter.  With the 0-based flattened index `i`, the id
is `i + 1` and the synthesized name placeholder mentions `i + 2`. -/
def macMonitorRecord (i : Nat) (monitor : MacMonitor) : MonitorRec :=
  { id := i + 1
    name := if monitor._name = "" then "Monitor " ++ toString (i + 2) else monitor._name
    width := .str (parseMacResolution monitor._spdisplays_resolution).1
    height := .str (parseMacResolution monitor._spdisplays_resolution).2
    retina := some (strContains monitor._name "Retina")
    detection_method := "system_profiler" }

/-- macOS strategy `_getMacOSMonitors`, lines 485-524.  The nested loops
over `data.SPDisplaysDataType` and each `spdisplays_ndrvs`, with the shared
`monitorId` counter, are the flattened monitor list numbered sequentially.
`failed` covers a command error/timeout and a `JSON.parse` error. -/
def _getMacOSMonitors (execOut : ExecResult (List MacDisplay)) : List MonitorRec :=
  match execOut with
  | .failed _ => []
  | .ok displays => (displays.flatMap (fun d => d.spdisplays_ndrvs)).mapIdx macMonitorRecord

/-- Per-line test of the Linux strategy, lines 533-552: a line yields a
candidate exactly when it contains `" connected"`, does not contain
`"disconnected"`, and matches `(\d+)x(\d+)`; the candidate carries the head
of the whitespace split (the name), the two digit groups, and the
`includes('primary')` flag. -/
def linuxLineCandidate (line : List Char) :
    Option (String × String × String × Bool) :=
  if isInfixOfL " connected".data line && !isInfixOfL "disconnected".data line then
    match findResolution line with
    | some (w, h) =>
      some (String.mk (jsSplitWsHead line), String.mk w, String.mk h,
        isInfixOfL "primary".data line)
    | none => none
  else none

/-- Record built for one accepted xrandr line (index 0-based). -/
def linuxLineRecord (index : Nat) (c : String × String × String × Bool) : MonitorRec :=
  { id := index + 1
    name := c.1
    width := .str c.2.1
    height := .str c.2.2.1
    is_primary := some c.2.2.2
    detection_method := "xrandr" }

/-- Linux strategy `_getLinuxMonitors`, lines 526-558: split stdout on
newlines, keep the candidate lines, number them with the running
`monitorId` counter (which increments exactly once per pushed record, hence
equals one plus the record's position). -/
def _getLinuxMonitors (execOut : ExecResult String) : List MonitorRec :=
  match execOut with
  | .failed _ => []
  | .ok stdout =>
    ((splitChar '\n' stdout.data).filterMap linuxLineCandidate).mapIdx linuxLineRecord

/-- The synthetic record of the final fallback branch, lines 430-439. -/
def fallbackMonitor : MonitorRec :=
  { id := 1
    name := "Unknown Monitor"
    width := .str "Unknown"
    height := .str "Unknown"
    detection_method := "fallback"
    note := some "Unable to detect monitor details" }

/-- Result of `getMonitorInfo`: the success object
`\x7b total_monitors, monitors, system \x7d` or the error object
`\x7b error, system \x7d`. -/
inductive MonitorInfoResult where
  | ok (total_monitors : Nat) (monitors : List MonitorRec) (system : String)
  | error (msg : String) (system : String)
deriving DecidableEq

/-- The monitors list of a result (empty for the error object, which has
no `monitors` key). -/
def MonitorInfoResult.monitorsList : MonitorInfoResult → List MonitorRec
  | .ok _ ms _ => ms
  | .error _ _ => []

/-- The `total_monitors` field of a result (0 for the error object). -/
def MonitorInfoResult.totalMonitors : MonitorInfoResult → Nat
  | .ok t _ _ => t
  | .error _ _ => 0

/-- Whether the result is the error object. -/
def MonitorInfoResult.isErr : MonitorInfoResult → Bool
  | .ok _ _ _ => false
  | .error _ _ => true

/-- The platform-specific branch of the fallback chain, lines 419-427:
select the strategy by `os.platform()`; any other platform leaves the list
empty. -/
def platformMonitors (systemName : String) (winOut : ExecResult (Option WmiParsed))
    (macOut : ExecResult (List MacDisplay)) (linuxOut : ExecResult String) :
    List MonitorRec :=
  if systemName = "win32" then _getWindowsMonitors winOut
  else if systemName = "darwin" then _getMacOSMonitors macOut
  else if systemName = "linux" then _getLinuxMonitors linuxOut
  else []

/-- The monitors list built by the fallback chain of `getMonitorInfo`
(lines 402-439) once `si.graphics()` resolved with `displaysList`: the
cross-platform records win when non-empty, else the platform strategy, else
the synthetic fallback record. -/
def discoveredMonitors (systemName : String) (displaysList : List SiDisplay)
    (winOut : ExecResult (Option WmiParsed)) (macOut : ExecResult (List MacDisplay))
    (linuxOut : ExecResult String) : List MonitorRec :=
  let monitors0 :=
    if displaysList.length > 0 then displaysList.mapIdx siDisplayRecord else []
  let monitors1 :=
    if monitors0.length = 0 then platformMonitors systemName winOut macOut linuxOut
    else monitors0
  if monitors1.length = 0 then [fallbackMonitor] else monitors1

/-- Function `getMonitorInfo`, lines 398-452.  `systemName` is `os.platform()`;
`graphics` is the outcome of `si.graphics()` (its `failed` case stands for
the library call throwing, which reaches the outer `catch`); the remaining
arguments are the outcomes the three platform commands would have. -/
def getMonitorInfo (systemName : String) (graphics : ExecResult (List SiDisplay))
    (winOut : ExecResult (Option WmiParsed)) (macOut : ExecResult (List MacDisplay))
    (linuxOut : ExecResult String) : MonitorInfoResult :=
  match graphics with
  | .failed msg => .error ("Failed to get monitor info: " ++ msg) systemName
  | .ok displaysList =>
    .ok (discoveredMonitors systemName displaysList winOut macOut linuxOut).length
      (discoveredMonitors systemName displaysList winOut macOut linuxOut) systemName

example :
    linuxLineCandidate "HDMI-1 connected primary 1920x1080+0+0 (normal left inverted right x axis y axis) 509mm x 286mm".data
      = some ("HDMI-1", "1920", "1080", true) := by decide

example : linuxLineCandidate "HDMI-2 disconnected".data = none := by decide

example : parseMacResolution "1920 x 1080 @ 60Hz" = ("1920", "1080") := by decide

/-- One entry of `si.processes().list`.  The library's floating-point CPU
and memory quantities are modelled on the integer domain (the sorting and
truncation logic under verification is ordering-generic); `user = ""`
models a missing/falsy `user` and `memVss = 0` a falsy `memVss`. -/
structure ProcEntry where
  pid : Nat
  name : String
  cpu : Int
  memRss : Int
  memVss : Int
  state : String
  started : String
  user : String
deriving DecidableEq

/-- The `si.processes()` aggregate: summary counters plus the process list.
`blocked = none` models a missing `blocked` field (the source defaults it
with `|| 0`). -/
structure ProcessesData where
  all : Nat
  running : Nat
  sleeping : Nat
  blocked : Option Nat
  list : List ProcEntry
deriving DecidableEq

/-- Code-point lexicographic order on character lists.  This is the model of
the external `a.name.localeCompare(b.name)` collation (an engine/locale
builtin outside this repository). -/
def lexLe : List Char → List Char → Bool
  | [], _ => true
  | _ :: _, [] => false
  | a :: as, b :: bs =>
    if a.toNat < b.toNat then true
    else if b.toNat < a.toNat then false
    else lexLe as bs

/-- The comparator switch of `getRunningProcesses`, lines 271-282: `a` may
stay before `b` exactly when the JS comparator returns a value ≤ 0 on
`(a, b)`.  The `cpu` case and the `default` case share one branch, as in the
source. -/
def procLe (sortBy : String) (a b : ProcEntry) : Bool :=
  if sortBy = "memory" then decide (b.memRss ≤ a.memRss)
  else if sortBy = "name" then lexLe a.name.data b.name.data
  else decide (b.cpu ≤ a.cpu)

/-- The sorted process list.  `Array.prototype.sort` with a consistent
comparator is required to be stable (ES2019), and a stable sort for a total
preorder is a unique function; it is modelled by Mathlib's stable
`List.insertionSort` keeping `a` before `b` when `procLe sortBy a b`. -/
def sortProcs (sortBy : String) (l : List ProcEntry) : List ProcEntry :=
  List.insertionSort (fun a b => procLe sortBy a b = true) l

/-- Number of elements kept by JS `arr.slice(0, limit)` on an array of
length `len`: a negative end index counts from the end of the array
(`max(len + limit, 0)` kept), a non-negative one keeps `min(limit, len)`. -/
def sliceCount (len : Nat) (limit : Int) : Nat :=
  if limit < 0 then ((len : Int) + limit).toNat else min limit.toNat len

/-- The process entries that survive sorting and `slice(0, limit)`. -/
def selectedProcs (data : ProcessesData) (limit : Int) (sortBy : String) :
    List ProcEntry :=
  (sortProcs sortBy data.list).take (sliceCount data.list.length limit)

/-- Rendering of `x.toFixed(1)` for the integer model of the float `x`. -/
def toFixed1 (n : Int) : String := toString n ++ ".0"

/-- One formatted process object, lines 291-300. -/
structure ProcOut where
  pid : Nat
  name : String
  cpu_percent : String
  memory_mb : String
  memory_percent : String
  status : String
  started : String
  user : String
deriving DecidableEq

/-- Formatting of one process entry, lines 291-300.  `totalmem` is
`os.totalmem()`; the float divisions feeding `toFixed(1)` are modelled by
integer division. -/
def formatProc (totalmem : Int) (proc : ProcEntry) : ProcOut :=
  { pid := proc.pid
    name := proc.name
    cpu_percent := toFixed1 proc.cpu ++ "%"
    memory_mb := toFixed1 (proc.memRss / (1024 * 1024)) ++ " MB"
    memory_percent :=
      (if proc.memVss = 0 then "0.0" else toFixed1 (proc.memVss * 100 / totalmem)) ++ "%"
    status := proc.state
    started := proc.started
    user := if proc.user = "" then "N/A" else proc.user }

/-- The summary object, lines 285-290. -/
structure ProcSummary where
  total_processes : Nat
  running : Nat
  sleeping : Nat
  blocked : Nat
deriving DecidableEq

/-- The result object of `getRunningProcesses`. -/
structure ProcResult where
  summary : ProcSummary
  processes : List ProcOut
deriving DecidableEq

/-- Function `getRunningProcesses`, lines 265-302.  `totalmem` is `os.totalmem()`
and `data` the `si.processes()` result; at the dispatch site an omitted
argument becomes the JS parameter default (`limit = 20`, `sortBy = 'cpu'`). -/
def getRunningProcesses (totalmem : Int) (data : ProcessesData) (limit : Int)
    (sortBy : String) : ProcResult :=
  { summary :=
      { total_processes := data.all
        running := data.running
        sleeping := data.sleeping
        blocked := data.blocked.getD 0 }
    processes := (selectedProcs data limit sortBy).map (formatProc totalmem) }

/-- A JSON-like JS value, the type of a handler's result. -/
inductive JsValue where
  | vnull
  | vbool (b : Bool)
  | vnum (n : Int)
  | vstr (s : String)
  | varr (elems : List JsValue)
  | vobj (fields : List (String × JsValue))

/-- Escaping of one character inside a JSON string literal. -/
def escapeJsonChar (c : Char) : String :=
  if c == '"' then "\\\""
  else if c == '\\' then "\\\\"
  else if c == '\n' then "\\n"
  else if c == '\t' then "\\t"
  else if c == '\r' then "\\r"
  else String.mk [c]

/-- Escaping of a string for a JSON string literal. -/
def escapeJson (s : String) : String :=
  String.join (s.data.map escapeJsonChar)

mutual

/-- Model of the `JSON.stringify` builtin (an engine builtin outside this
repository) on the value domain used here; the 2-space indentation of
`JSON.stringify(result, null, 2)` is abstracted away — this model emits the
same data compactly. -/
def JsValue.stringify : JsValue → String
  | .vnull => "null"
  | .vbool b => if b then "true" else "false"
  | .vnum n => toString n
  | .vstr s => "\"" ++ escapeJson s ++ "\""
  | .varr elems => "[" ++ stringifyElems elems ++ "]"
  | .vobj fields => "\x7b" ++ stringifyFields fields ++ "\x7d"

/-- Comma-joined serialization of array elements. -/
def stringifyElems : List JsValue → String
  | [] => ""
  | [v] => v.stringify
  | v :: rest => v.stringify ++ "," ++ stringifyElems rest

/-- Comma-joined serialization of object fields. -/
def stringifyFields : List (String × JsValue) → String
  | [] => ""
  | [(k, v)] => "\"" ++ escapeJson k ++ "\":" ++ v.stringify
  | (k, v) :: rest =>
    "\"" ++ escapeJson k ++ "\":" ++ v.stringify ++ "," ++ stringifyFields rest

end

/-- The result-to-text step of the dispatch, line 183:
`typeof result === 'string' ? result : JSON.stringify(result, null, 2)`. -/
def renderResult : JsValue → String
  | .vstr s => s
  | v => v.stringify

/-- The operation names of the dispatch switch, lines 150-177. -/
def knownToolNames : List String :=
  ["get_cpu_info", "get_memory_info", "get_disk_usage", "get_running_processes",
   "get_system_info", "get_network_info", "get_quick_stats", "get_monitor_info"]

/-- One content block of a tool-call response. -/
structure ContentBlock where
  type : String
  text : String
deriving DecidableEq

/-- A tool-call response; a JS response without the `isError` key is
modelled as `isError = false`. -/
structure CallToolResponse where
  content : List ContentBlock
  isError : Bool
deriving DecidableEq

/-- The CallTool request handler, lines 145-198.  `run` abstracts the
execution of the named tool's handler with the request's arguments: `ok`
is the value an awaited handler resolved with, `error` the message of the
exception it threw.  An unknown name throws
`Unknown tool: <name>` inside the same `try`, so it lands in the same
`catch` as a handler failure. -/
def handleCallTool (name : String) (run : String → Except String JsValue) :
    CallToolResponse :=
  let dispatched : Except String JsValue :=
    if knownToolNames.contains name then run name
    else .error ("Unknown tool: " ++ name)
  match dispatched with
  | .ok result => { content := [{ type := "text", text := renderResult result }], isError := false }
  | .error msg => { content := [{ type := "text", text := "Error: " ++ msg }], isError := true }

/-! ### Helper lemmas -/

theorem lexLe_total : ∀ a b : List Char, lexLe a b = true ∨ lexLe b a = true
  | [], _ => Or.inl rfl
  | _ :: _, [] => Or.inr rfl
  | a :: as, b :: bs => by
    rcases Nat.lt_trichotomy a.toNat b.toNat with h | h | h
    · left; simp [lexLe, h]
    · rcases lexLe_total as bs with ih | ih
      · left; simp [lexLe, h, ih]
      · right; simp [lexLe, h, ih]
    · right; simp [lexLe, h]

theorem lexLe_trans : ∀ a b c : List Char,
    lexLe a b = true → lexLe b c = true → lexLe a c = true
  | [], _, _, _, _ => rfl
  | _ :: _, [], _, h1, _ => Bool.noConfusion h1
  | _ :: _, _ :: _, [], _, h2 => Bool.noConfusion h2
  | a :: as, b :: bs, c :: cs, h1, h2 => by
    simp only [lexLe] at h1 h2 ⊢
    rcases Nat.lt_trichotomy a.toNat b.toNat with hab | hab | hab
    · rcases Nat.lt_trichotomy b.toNat c.toNat with hbc | hbc | hbc
      · have hac : a.toNat < c.toNat := by omega
        simp [hac]
      · have hac : a.toNat < c.toNat := by omega
        simp [hac]
      · have hn : ¬ b.toNat < c.toNat := by omega
        rw [if_neg hn, if_pos hbc] at h2
        exact absurd h2 (by decide)
    · rcases Nat.lt_trichotomy b.toNat c.toNat with hbc | hbc | hbc
      · have hac : a.toNat < c.toNat := by omega
        simp [hac]
      · have h1a : ¬ a.toNat < b.toNat := by omega
        have h1b : ¬ b.toNat < a.toNat := by omega
        have h2a : ¬ b.toNat < c.toNat := by omega
        have h2b : ¬ c.toNat < b.toNat := by omega
        have hac1 : ¬ a.toNat < c.toNat := by omega
        have hac2 : ¬ c.toNat < a.toNat := by omega
        rw [if_neg h1a, if_neg h1b] at h1
        rw [if_neg h2a, if_neg h2b] at h2
        rw [if_neg hac1, if_neg hac2]
        exact lexLe_trans as bs cs h1 h2
      · have hn : ¬ b.toNat < c.toNat := by omega
        rw [if_neg hn, if_pos hbc] at h2
        exact absurd h2 (by decide)
    · have hn : ¬ a.toNat < b.toNat := by omega
      rw [if_neg hn, if_pos hab] at h1
      exact absurd h1 (by decide)

theorem procLe_total (s : String) (a b : ProcEntry) :
    procLe s a b = true ∨ procLe s b a = true := by
  unfold procLe
  split_ifs
  · simp only [decide_eq_true_eq]; omega
  · exact lexLe_total a.name.data b.name.data
  · simp only [decide_eq_true_eq]; omega

theorem procLe_trans (s : String) (a b c : ProcEntry) :
    procLe s a b = true → procLe s b c = true → procLe s a c = true := by
  unfold procLe
  split_ifs <;> intro h1 h2
  · simp only [decide_eq_true_eq] at *; omega
  · exact lexLe_trans _ _ _ h1 h2
  · simp only [decide_eq_true_eq] at *; omega

theorem sortProcs_sorted (s : String) (l : List ProcEntry) :
    List.Sorted (fun a b => procLe s a b = true) (sortProcs s l) := by
  haveI : IsTotal ProcEntry (fun a b => procLe s a b = true) :=
    ⟨fun a b => procLe_total s a b⟩
  haveI : IsTrans ProcEntry (fun a b => procLe s a b = true) :=
    ⟨fun a b c => procLe_trans s a b c⟩
  exact List.sorted_insertionSort _ l

theorem sortProcs_perm (s : String) (l : List ProcEntry) :
    (sortProcs s l).Perm l :=
  List.perm_insertionSort _ l

/-- The ids of a monitors list are the consecutive integers 1..N in list
order. -/
def idsConsecutive (ms : List MonitorRec) : Prop :=
  ∀ i (h : i < ms.length), (ms.get ⟨i, h⟩).id = i + 1

theorem idsConsecutive_mapIdx {α : Type} (f : Nat → α → MonitorRec)
    (hf : ∀ i x, (f i x).id = i + 1) (l : List α) :
    idsConsecutive (l.mapIdx f) := by
  intro i h
  rw [List.get_eq_getElem, List.getElem_mapIdx]
  exact hf i _

theorem forall_mem_mapIdx {α β : Type} (f : Nat → α → β) (l : List α)
    (P : β → Prop) (hf : ∀ i x, P (f i x)) : ∀ y ∈ l.mapIdx f, P y := by
  intro y hy
  obtain ⟨i, hi, hEq⟩ := List.mem_iff_getElem.mp hy
  rw [List.getElem_mapIdx] at hEq
  exact hEq ▸ hf i _

theorem idsConsecutive_windows (w : ExecResult (Option WmiParsed)) :
    idsConsecutive (_getWindowsMonitors w) := by
  match w with
  | .failed _ => intro i h; simp [_getWindowsMonitors] at h
  | .ok none => intro i h; simp [_getWindowsMonitors] at h
  | .ok (some p) => exact idsConsecutive_mapIdx _ (fun _ _ => rfl) _

theorem idsConsecutive_mac (m : ExecResult (List MacDisplay)) :
    idsConsecutive (_getMacOSMonitors m) := by
  match m with
  | .failed _ => intro i h; simp [_getMacOSMonitors] at h
  | .ok displays => exact idsConsecutive_mapIdx _ (fun _ _ => rfl) _

theorem idsConsecutive_linux (l : ExecResult String) :
    idsConsecutive (_getLinuxMonitors l) := by
  match l with
  | .failed _ => intro i h; simp [_getLinuxMonitors] at h
  | .ok stdout => exact idsConsecutive_mapIdx _ (fun _ _ => rfl) _

theorem idsConsecutive_platform (sys : String) (w : ExecResult (Option WmiParsed))
    (m : ExecResult (List MacDisplay)) (l : ExecResult String) :
    idsConsecutive (platformMonitors sys w m l) := by
  unfold platformMonitors
  split_ifs
  · exact idsConsecutive_windows w
  · exact idsConsecutive_mac m
  · exact idsConsecutive_linux l
  · intro i h; simp at h

theorem tag_windows (w : ExecResult (Option WmiParsed)) :
    ∀ y ∈ _getWindowsMonitors w, y.detection_method = "wmi" := by
  match w with
  | .failed _ => intro y hy; simp [_getWindowsMonitors] at hy
  | .ok none => intro y hy; simp [_getWindowsMonitors] at hy
  | .ok (some p) => exact forall_mem_mapIdx _ _ _ (fun _ _ => rfl)

theorem tag_mac (m : ExecResult (List MacDisplay)) :
    ∀ y ∈ _getMacOSMonitors m, y.detection_method = "system_profiler" := by
  match m with
  | .failed _ => intro y hy; simp [_getMacOSMonitors] at hy
  | .ok displays => exact forall_mem_mapIdx _ _ _ (fun _ _ => rfl)

theorem tag_linux (l : ExecResult String) :
    ∀ y ∈ _getLinuxMonitors l, y.detection_method = "xrandr" := by
  match l with
  | .failed _ => intro y hy; simp [_getLinuxMonitors] at hy
  | .ok stdout => exact forall_mem_mapIdx _ _ _ (fun _ _ => rfl)

theorem tag_platform (sys : String) (w : ExecResult (Option WmiParsed))
    (m : ExecResult (List MacDisplay)) (l : ExecResult String) :
    ∀ y ∈ platformMonitors sys w m l,
      y.detection_method = "wmi" ∨ y.detection_method = "system_profiler" ∨
      y.detection_method = "xrandr" := by
  unfold platformMonitors
  split_ifs
  · exact fun y hy => Or.inl (tag_windows w y hy)
  · exact fun y hy => Or.inr (Or.inl (tag_mac m y hy))
  · exact fun y hy => Or.inr (Or.inr (tag_linux l y hy))
  · intro y hy; simp at hy

theorem monitorsList_ok (sys : String) (d : List SiDisplay)
    (w : ExecResult (Option WmiParsed)) (m : ExecResult (List MacDisplay))
    (l : ExecResult String) :
    (getMonitorInfo sys (.ok d) w m l).monitorsList = discoveredMonitors sys d w m l := rfl

theorem discoveredMonitors_of_displays (sys : String) (d : List SiDisplay)
    (w : ExecResult (Option WmiParsed)) (m : ExecResult (List MacDisplay))
    (l : ExecResult String) (hd : d ≠ []) :
    discoveredMonitors sys d w m l = d.mapIdx siDisplayRecord := by
  have hlen : 0 < d.length := List.length_pos.mpr hd
  have hlen2 : (d.mapIdx siDisplayRecord).length = d.length := List.length_mapIdx
  have h3 : ¬ (d.mapIdx siDisplayRecord).length = 0 := by omega
  unfold discoveredMonitors
  simp only [if_pos hlen, if_neg h3]

theorem discoveredMonitors_of_platform (sys : String) (w : ExecResult (Option WmiParsed))
    (m : ExecResult (List MacDisplay)) (l : ExecResult String)
    (hp : platformMonitors sys w m l ≠ []) :
    discoveredMonitors sys [] w m l = platformMonitors sys w m l := by
  have hlen : 0 < (platformMonitors sys w m l).length := List.length_pos.mpr hp
  have h3 : ¬ (platformMonitors sys w m l).length = 0 := by omega
  show (if (platformMonitors sys w m l).length = 0 then [fallbackMonitor]
        else platformMonitors sys w m l) = platformMonitors sys w m l
  exact if_neg h3

theorem discoveredMonitors_fallback (sys : String) (w : ExecResult (Option WmiParsed))
    (m : ExecResult (List MacDisplay)) (l : ExecResult String)
    (hp : platformMonitors sys w m l = []) :
    discoveredMonitors sys [] w m l = [fallbackMonitor] := by
  show (if (platformMonitors sys w m l).length = 0 then [fallbackMonitor]
        else platformMonitors sys w m l) = [fallbackMonitor]
  rw [hp]
  rfl

theorem discoveredMonitors_ne_nil (sys : String) (d : List SiDisplay)
    (w : ExecResult (Option WmiParsed)) (m : ExecResult (List MacDisplay))
    (l : ExecResult String) : discoveredMonitors sys d w m l ≠ [] := by
  by_cases hd : d = []
  · subst hd
    by_cases hp : platformMonitors sys w m l = []
    · rw [discoveredMonitors_fallback sys w m l hp]
      simp
    · rw [discoveredMonitors_of_platform sys w m l hp]
      exact hp
  · rw [discoveredMonitors_of_displays sys d w m l hd]
    intro hc
    apply hd
    have hlen : (d.mapIdx siDisplayRecord).length = d.length := List.length_mapIdx
    have h0 : d.length = 0 := by
      rw [← hlen, hc]
      rfl
    exact List.length_eq_zero.mp h0

theorem idsConsecutive_discovered (sys : String) (d : List SiDisplay)
    (w : ExecResult (Option WmiParsed)) (m : ExecResult (List MacDisplay))
    (l : ExecResult String) : idsConsecutive (discoveredMonitors sys d w m l) := by
  by_cases hd : d = []
  · subst hd
    by_cases hp : platformMonitors sys w m l = []
    · rw [discoveredMonitors_fallback sys w m l hp]
      intro i h
      simp only [List.length_singleton] at h
      have hi : i = 0 := by omega
      subst hi
      rfl
    · rw [discoveredMonitors_of_platform sys w m l hp]
      exact idsConsecutive_platform sys w m l
  · rw [discoveredMonitors_of_displays sys d w m l hd]
    exact idsConsecutive_mapIdx siDisplayRecord (fun _ _ => rfl) d

/-! ### Concrete fixtures used by counterexamples and witnesses -/

/-- A sample display as the graphics query could report it. -/
def siDell : SiDisplay :=
  { model := "DELL U2720Q", vendor := "Dell Inc.", resolutionX := 1920,
    resolutionY := 1080, main := true, builtin := false }

/-- A sample process entry. -/
def procAlpha : ProcEntry :=
  { pid := 10, name := "alpha", cpu := 50, memRss := 200000000, memVss := 0,
    state := "running", started := "10:00", user := "root" }

/-- A second sample process entry. -/
def procBeta : ProcEntry :=
  { pid := 20, name := "beta", cpu := 30, memRss := 300000000, memVss := 0,
    state := "sleeping", started := "10:05", user := "" }

/-- A sample `si.processes()` aggregate with two entries. -/
def procsSample : ProcessesData :=
  { all := 2, running := 1, sleeping := 1, blocked := none,
    list := [procAlpha, procBeta] }

/-- A sample xrandr line for a connected primary display. -/
def hdmiLine : String :=
  "HDMI-1 connected primary 1920x1080+0+0 (normal left inverted right x axis y axis) 509mm x 286mm"

/-- A sample parsed `system_profiler` display adapter with one monitor. -/
def macSample : MacDisplay :=
  { spdisplays_ndrvs := [{ _spdisplays_resolution := "1920 x 1080 @ 60Hz", _name := "Color LCD" }] }

/-- A parsed macOS monitor lacking both a name and a resolution. -/
def macNoName : MacMonitor := { _spdisplays_resolution := "", _name := "" }

/-- A parsed WMI monitor with no instance name and no physical sizes. -/
def wmiBare : WmiMonitor :=
  { InstanceName := "", MaxHorizontalImageSize := none, MaxVerticalImageSize := none }

/-! ### Claim theorems -/

/-- C1: for every `get_monitor_info` call, exactly one strategy's output
forms the whole monitors list: when the cross-platform graphics query
yields at least one record the result is exactly those records (independent
of what the platform-specific strategy would have produced), and when it
yields zero and the platform-specific strategy yields at least one record
the result is exactly those; outputs of distinct strategies are never
merged. -/
theorem c1_exactly_one_strategy (sys : String) (d : List SiDisplay)
    (w : ExecResult (Option WmiParsed)) (m : ExecResult (List MacDisplay))
    (l : ExecResult String) :
    (d ≠ [] →
      (getMonitorInfo sys (.ok d) w m l).monitorsList = d.mapIdx siDisplayRecord ∧
      ∀ w2 m2 l2, getMonitorInfo sys (.ok d) w2 m2 l2 = getMonitorInfo sys (.ok d) w m l) ∧
    (d = [] → platformMonitors sys w m l ≠ [] →
      (getMonitorInfo sys (.ok d) w m l).monitorsList = platformMonitors sys w m l) := by
  constructor
  · intro hd
    constructor
    · rw [monitorsList_ok, discoveredMonitors_of_displays sys d w m l hd]
    · intro w2 m2 l2
      show MonitorInfoResult.ok _ _ _ = MonitorInfoResult.ok _ _ _
      rw [discoveredMonitors_of_displays sys d w2 m2 l2 hd,
        discoveredMonitors_of_displays sys d w m l hd]
  · intro hd hp
    subst hd
    rw [monitorsList_ok, discoveredMonitors_of_platform sys w m l hp]

/-- Witness for C1 at concrete inputs: one cross-platform display wins over
failing platform commands, and with zero cross-platform displays a
successful xrandr parse wins. -/
theorem c1_witness :
    (getMonitorInfo "win32" (.ok [siDell]) (.failed "boom") (.failed "boom")
        (.failed "boom")).monitorsList = [siDell].mapIdx siDisplayRecord ∧
    (getMonitorInfo "linux" (.ok []) (.failed "boom") (.failed "boom")
        (.ok hdmiLine)).monitorsList =
      platformMonitors "linux" (.failed "boom") (.failed "boom") (.ok hdmiLine) :=
  ⟨((c1_exactly_one_strategy "win32" [siDell] (.failed "boom") (.failed "boom")
      (.failed "boom")).1 (by decide)).1,
    (c1_exactly_one_strategy "linux" [] (.failed "boom") (.failed "boom")
      (.ok hdmiLine)).2 rfl (by decide)⟩

/-- C2: on Linux, a line of the xrandr output yields a record if and only
if it contains the substring `" connected"`, does not contain
`"disconnected"`, and matches `(\d+)x(\d+)`; the record's name is the head
of the whitespace split of the line (its first whitespace-delimited token),
width/height are the matched digit groups of the leftmost match, and
`is_primary` holds exactly when the line contains `"primary"`. -/
theorem c2_linux_line (line : String) :
    ((linuxLineCandidate line.data).isSome = true ↔
      (strContains line " connected" = true ∧ strContains line "disconnected" = false ∧
        (findResolution line.data).isSome = true)) ∧
    (∀ n w h p, linuxLineCandidate line.data = some (n, w, h, p) →
      n = String.mk (jsSplitWsHead line.data) ∧
      findResolution line.data = some (w.data, h.data) ∧
      p = strContains line "primary") := by
  constructor
  · unfold linuxLineCandidate
    rcases hres : findResolution line.data with _ | ⟨w0, h0⟩ <;>
      by_cases hc : isInfixOfL " connected".data line.data = true <;>
      by_cases hd : isInfixOfL "disconnected".data line.data = true <;>
        simp [strContains, hres, hc, hd]
  · intro n w h p hsome
    unfold linuxLineCandidate at hsome
    by_cases hcond :
      (isInfixOfL " connected".data line.data && !isInfixOfL "disconnected".data line.data) = true
    · rw [if_pos hcond] at hsome
      rcases hres : findResolution line.data with _ | ⟨w0, h0⟩
      · rw [hres] at hsome
        exact absurd hsome (by simp)
      · rw [hres] at hsome
        simp only [Option.some.injEq, Prod.mk.injEq] at hsome
        obtain ⟨hn, hw, hh, hp⟩ := hsome
        refine ⟨hn.symm, ?_, hp.symm⟩
        subst hw
        subst hh
        rfl
    · rw [if_neg hcond] at hsome
      exact absurd hsome (by simp)

/-- Witness for C2 at the two lines of the claim: the connected primary
line yields the stated record, the disconnected line yields none. -/
theorem c2_witness :
    linuxLineCandidate hdmiLine.data = some ("HDMI-1", "1920", "1080", true) ∧
    ("HDMI-1" : String) = String.mk (jsSplitWsHead hdmiLine.data) ∧
    findResolution hdmiLine.data = some ("1920".data, "1080".data) ∧
    (true = strContains hdmiLine "primary") ∧
    linuxLineCandidate "HDMI-2 disconnected".data = none :=
  ⟨by decide,
    ((c2_linux_line hdmiLine).2 "HDMI-1" "1920" "1080" true (by decide)).1,
    ((c2_linux_line hdmiLine).2 "HDMI-1" "1920" "1080" true (by decide)).2.1,
    ((c2_linux_line hdmiLine).2 "HDMI-1" "1920" "1080" true (by decide)).2.2,
    by decide⟩

/-- C3 (amended): the processes sequence is the stable sort per the stated
order truncated by `slice(0, limit)`, so for `limit ≥ 0` it has exactly
`min(limit, total available)` entries and `limit = 0` yields the empty
sequence, but a negative limit keeps `max(total + limit, 0)` entries (JS
slice semantics) rather than zero; the summary counts are unchanged and
accurate for every limit and sort key. -/
theorem c3_sorting_truncation_summary (tm : Int) (data : ProcessesData)
    (limit : Int) (sortBy : String) :
    (getRunningProcesses tm data limit sortBy).summary =
      { total_processes := data.all, running := data.running, sleeping := data.sleeping,
        blocked := data.blocked.getD 0 } ∧
    (getRunningProcesses tm data limit sortBy).processes =
      (selectedProcs data limit sortBy).map (formatProc tm) ∧
    List.Sorted (fun a b => procLe sortBy a b = true) (sortProcs sortBy data.list) ∧
    (sortProcs sortBy data.list).Perm data.list ∧
    (0 ≤ limit →
      (getRunningProcesses tm data limit sortBy).processes.length =
        min limit.toNat data.list.length) ∧
    (limit = 0 → (getRunningProcesses tm data limit sortBy).processes = []) ∧
    (limit < 0 →
      (getRunningProcesses tm data limit sortBy).processes.length =
        ((data.list.length : Int) + limit).toNat) := by
  refine ⟨rfl, rfl, sortProcs_sorted sortBy data.list, sortProcs_perm sortBy data.list,
    ?_, ?_, ?_⟩
  · intro hl
    have hsort : (sortProcs sortBy data.list).length = data.list.length :=
      (sortProcs_perm sortBy data.list).length_eq
    show ((selectedProcs data limit sortBy).map (formatProc tm)).length = _
    rw [List.length_map]
    unfold selectedProcs sliceCount
    rw [if_neg (not_lt.mpr hl), List.length_take, hsort]
    omega
  · intro h0
    subst h0
    show ((selectedProcs data 0 sortBy).map (formatProc tm)) = []
    unfold selectedProcs sliceCount
    simp
  · intro hl
    have hsort : (sortProcs sortBy data.list).length = data.list.length :=
      (sortProcs_perm sortBy data.list).length_eq
    show ((selectedProcs data limit sortBy).map (formatProc tm)).length = _
    rw [List.length_map]
    unfold selectedProcs sliceCount
    rw [if_pos hl, List.length_take, hsort]
    omega

/-- Counterexample to C3 as stated: with two available processes and
`limit = -1 ≤ 0` the processes sequence is not empty — `slice(0, -1)`
keeps one entry. -/
theorem c3_counterexample :
    ((-1 : Int) ≤ 0) ∧
    (getRunningProcesses 1000000 procsSample (-1) "cpu").processes ≠ [] := by
  exact ⟨by decide, by decide⟩

/-- Witness for C3 applied at a concrete call with `limit = 1`. -/
theorem c3_witness :
    (0 ≤ (1 : Int)) ∧
    (getRunningProcesses 1000000 procsSample 1 "cpu").processes.length =
      min (1 : Int).toNat procsSample.list.length :=
  ⟨by decide,
    (c3_sorting_truncation_summary 1000000 procsSample 1 "cpu").2.2.2.2.1 (by decide)⟩

/-- C4: on macOS, the resolution string `"1920 x 1080 @ 60Hz"` parses to
width `"1920"` and height `"1080"`; a resolution string not containing
`" x "` leaves both as `"Unknown"` (the parse is a total function, so no
exception is raised); and every produced monitor record's width/height come
from this parse of its own resolution string. -/
theorem c4_mac_resolution_parsing (resolution : String) :
    parseMacResolution "1920 x 1080 @ 60Hz" = ("1920", "1080") ∧
    (strContains resolution " x " = false →
      parseMacResolution resolution = ("Unknown", "Unknown")) ∧
    (∀ (displays : List MacDisplay) (i : Nat)
      (h1 : i < (_getMacOSMonitors (.ok displays)).length)
      (h2 : i < (displays.flatMap (fun dd => dd.spdisplays_ndrvs)).length),
      ((_getMacOSMonitors (.ok displays)).get ⟨i, h1⟩).width =
        NumOrStr.str (parseMacResolution
          (((displays.flatMap (fun dd => dd.spdisplays_ndrvs)).get
            ⟨i, h2⟩)._spdisplays_resolution)).1 ∧
      ((_getMacOSMonitors (.ok displays)).get ⟨i, h1⟩).height =
        NumOrStr.str (parseMacResolution
          (((displays.flatMap (fun dd => dd.spdisplays_ndrvs)).get
            ⟨i, h2⟩)._spdisplays_resolution)).2) := by
  refine ⟨by decide, ?_, ?_⟩
  · intro hnc
    have hn : ¬ (strContains resolution " x " = true) := by simp [hnc]
    unfold parseMacResolution
    rw [if_neg hn]
  · intro displays i h1 h2
    have hms : _getMacOSMonitors (.ok displays) =
        (displays.flatMap (fun dd => dd.spdisplays_ndrvs)).mapIdx macMonitorRecord := rfl
    constructor <;>
      · rw [List.get_eq_getElem, List.get_eq_getElem]
        simp only [hms, List.getElem_mapIdx]
        rfl

/-- Witness for C4: a string without `" x "` parses to Unknown, and the
sample monitor's record carries the parse of its own resolution string. -/
theorem c4_witness :
    strContains "2560x1440@60" " x " = false ∧
    parseMacResolution "2560x1440@60" = ("Unknown", "Unknown") ∧
    ((_getMacOSMonitors (.ok [macSample])).get ⟨0, by decide⟩).width =
      NumOrStr.str (parseMacResolution
        ((([macSample].flatMap (fun dd => dd.spdisplays_ndrvs)).get
          ⟨0, by decide⟩)._spdisplays_resolution)).1 :=
  ⟨by decide,
    (c4_mac_resolution_parsing "2560x1440@60").2.1 (by decide),
    ((c4_mac_resolution_parsing "").2.2 [macSample] 0 (by decide) (by decide)).1⟩

/-- C5 (amended): every record produced by `get_monitor_info` carries a
detection-method tag drawn from
`{systeminformation, wmi, system_profiler, xrandr, fallback}` — the
cross-platform tag is the string `"systeminformation"`, not `"systeminfo"`
— and every record built from the cross-platform graphics query is tagged
exactly `"systeminformation"`. -/
theorem c5_detection_method_tags (sys : String) (d : List SiDisplay)
    (w : ExecResult (Option WmiParsed)) (m : ExecResult (List MacDisplay))
    (l : ExecResult String) :
    (∀ rec ∈ (getMonitorInfo sys (.ok d) w m l).monitorsList,
      rec.detection_method ∈
        (["systeminformation", "wmi", "system_profiler", "xrandr", "fallback"] : List String)) ∧
    (d ≠ [] → ∀ rec ∈ (getMonitorInfo sys (.ok d) w m l).monitorsList,
      rec.detection_method = "systeminformation") := by
  constructor
  · intro rec hrec
    rw [monitorsList_ok] at hrec
    by_cases hd : d = []
    · subst hd
      by_cases hp : platformMonitors sys w m l = []
      · rw [discoveredMonitors_fallback sys w m l hp] at hrec
        simp only [List.mem_singleton] at hrec
        subst hrec
        simp [fallbackMonitor]
      · rw [discoveredMonitors_of_platform sys w m l hp] at hrec
        rcases tag_platform sys w m l rec hrec with h | h | h <;> simp [h]
    · rw [discoveredMonitors_of_displays sys d w m l hd] at hrec
      have h := forall_mem_mapIdx siDisplayRecord d
        (fun y => y.detection_method = "systeminformation") (fun _ _ => rfl) rec hrec
      simp [h]
  · intro hd rec hrec
    rw [monitorsList_ok, discoveredMonitors_of_displays sys d w m l hd] at hrec
    exact forall_mem_mapIdx siDisplayRecord d
      (fun y => y.detection_method = "systeminformation") (fun _ _ => rfl) rec hrec

/-- Counterexample to C5 as stated: a record built from the cross-platform
graphics query is tagged `"systeminformation"`, which is not in the
claimed tag set containing `"systeminfo"`. -/
theorem c5_counterexample :
    ((getMonitorInfo "linux" (.ok [siDell]) (.failed "x") (.failed "x")
        (.failed "x")).monitorsList.map (fun rec => rec.detection_method) =
      ["systeminformation"]) ∧
    ("systeminformation" ∉
      (["systeminfo", "wmi", "system_profiler", "xrandr", "fallback"] : List String)) := by
  exact ⟨by decide, by decide⟩

/-- Witness for C5 at a concrete cross-platform record. -/
theorem c5_witness :
    (siDisplayRecord 0 siDell).detection_method = "systeminformation" :=
  (c5_detection_method_tags "win32" [siDell] (.failed "x") (.failed "x") (.failed "x")).2
    (by decide) (siDisplayRecord 0 siDell) (by decide)

/-- C6: every successful `get_monitor_info` result has a non-empty
monitors list (when both strategies yield zero records it is exactly the
one synthetic fallback record with unknown name and resolution),
`total_monitors` equals the length of the monitors list, and the records'
ids are the consecutive integers 1..N in emission order. -/
theorem c6_result_invariants (sys : String) (d : List SiDisplay)
    (w : ExecResult (Option WmiParsed)) (m : ExecResult (List MacDisplay))
    (l : ExecResult String) :
    (getMonitorInfo sys (.ok d) w m l).monitorsList ≠ [] ∧
    (getMonitorInfo sys (.ok d) w m l).totalMonitors =
      (getMonitorInfo sys (.ok d) w m l).monitorsList.length ∧
    idsConsecutive (getMonitorInfo sys (.ok d) w m l).monitorsList ∧
    (d = [] → platformMonitors sys w m l = [] →
      (getMonitorInfo sys (.ok d) w m l).monitorsList =
        [{ id := 1, name := "Unknown Monitor", width := .str "Unknown",
           height := .str "Unknown", detection_method := "fallback",
           note := some "Unable to detect monitor details" }]) := by
  refine ⟨?_, rfl, ?_, ?_⟩
  · rw [monitorsList_ok]
    exact discoveredMonitors_ne_nil sys d w m l
  · rw [monitorsList_ok]
    exact idsConsecutive_discovered sys d w m l
  · intro hd hp
    subst hd
    rw [monitorsList_ok, discoveredMonitors_fallback sys w m l hp]
    rfl

/-- Witness for C6 on an unsupported platform with every strategy failing:
the result is the synthetic fallback record. -/
theorem c6_witness :
    (getMonitorInfo "sunos" (.ok []) (.failed "a") (.failed "b") (.failed "c")).monitorsList =
      [{ id := 1, name := "Unknown Monitor", width := .str "Unknown",
         height := .str "Unknown", detection_method := "fallback",
         note := some "Unable to detect monitor details" }] :=
  (c6_result_invariants "sunos" [] (.failed "a") (.failed "b") (.failed "c")).2.2.2
    rfl (by decide)

/-- C7: `get_monitor_info` never raises outward (the embedding is a total
function into a result value): a failure inside an individual platform
detection strategy — non-zero exit, timeout, unparsable output — is
absorbed as that strategy producing zero records and the chain falls
through to the fallback record, and only an exception of the overall
operation (the unguarded graphics query throwing) yields the
`error`/`system` object. -/
theorem c7_never_raises (sys msg : String) (w : ExecResult (Option WmiParsed))
    (m : ExecResult (List MacDisplay)) (l : ExecResult String) :
    _getWindowsMonitors (.failed msg) = [] ∧
    _getMacOSMonitors (.failed msg) = [] ∧
    _getLinuxMonitors (.failed msg) = [] ∧
    getMonitorInfo sys (.ok []) (.failed msg) (.failed msg) (.failed msg) =
      .ok 1 [fallbackMonitor] sys ∧
    getMonitorInfo sys (.failed msg) w m l =
      .error ("Failed to get monitor info: " ++ msg) sys ∧
    (∀ d : List SiDisplay, (getMonitorInfo sys (.ok d) w m l).isErr = false) := by
  refine ⟨rfl, rfl, rfl, ?_, rfl, fun d => rfl⟩
  have hp : platformMonitors sys (.failed msg) (.failed msg) (.failed msg) = [] := by
    unfold platformMonitors
    split_ifs <;> rfl
  show MonitorInfoResult.ok _ _ _ = MonitorInfoResult.ok _ _ _
  rw [discoveredMonitors_fallback sys (.failed msg) (.failed msg) (.failed msg) hp]
  rfl

/-- C8: every tool-call request produces a response with exactly one text
content block: a successful handler result is returned as that block's
pretty-printed text with no error flag, and every handler exception —
including an unknown operation name — is caught at the dispatch boundary
and returned as a text block `"Error: <message>"` with the error flag set,
never propagated as a transport-level fault. -/
theorem c8_dispatch_envelope (name : String) (run : String → Except String JsValue) :
    (handleCallTool name run).content.length = 1 ∧
    (∀ blk ∈ (handleCallTool name run).content, blk.type = "text") ∧
    (∀ v, knownToolNames.contains name = true → run name = .ok v →
      handleCallTool name run =
        { content := [{ type := "text", text := renderResult v }], isError := false }) ∧
    (∀ msg, knownToolNames.contains name = true → run name = .error msg →
      handleCallTool name run =
        { content := [{ type := "text", text := "Error: " ++ msg }], isError := true }) ∧
    (knownToolNames.contains name = false →
      handleCallTool name run =
        { content := [{ type := "text", text := "Error: " ++ ("Unknown tool: " ++ name) }],
          isError := true }) := by
  by_cases hk : knownToolNames.contains name = true
  · rcases hr : run name with msg | v
    · have he : handleCallTool name run =
          { content := [{ type := "text", text := "Error: " ++ msg }], isError := true } := by
        unfold handleCallTool
        rw [if_pos hk, hr]
      refine ⟨by rw [he]; rfl, ?_, ?_, ?_, ?_⟩
      · intro blk hblk
        rw [he] at hblk
        simp only [List.mem_singleton] at hblk
        subst hblk
        rfl
      · intro v hk2 hok
        exact Except.noConfusion hok
      · intro m2 hk2 herr
        cases herr
        exact he
      · intro hnk
        rw [hk] at hnk
        exact Bool.noConfusion hnk
    · have he : handleCallTool name run =
          { content := [{ type := "text", text := renderResult v }], isError := false } := by
        unfold handleCallTool
        rw [if_pos hk, hr]
      refine ⟨by rw [he]; rfl, ?_, ?_, ?_, ?_⟩
      · intro blk hblk
        rw [he] at hblk
        simp only [List.mem_singleton] at hblk
        subst hblk
        rfl
      · intro v2 hk2 hok
        cases hok
        exact he
      · intro m2 hk2 herr
        exact Except.noConfusion herr
      · intro hnk
        rw [hk] at hnk
        exact Bool.noConfusion hnk
  · have he : handleCallTool name run =
        { content := [{ type := "text", text := "Error: " ++ ("Unknown tool: " ++ name) }],
          isError := true } := by
      unfold handleCallTool
      rw [if_neg hk]
    refine ⟨by rw [he]; rfl, ?_, ?_, ?_, fun _ => he⟩
    · intro blk hblk
      rw [he] at hblk
      simp only [List.mem_singleton] at hblk
      subst hblk
      rfl
    · intro v hka _
      exact absurd hka hk
    · intro m2 hka _
      exact absurd hka hk

/-- Witness for C8 at a known and at an unknown operation name. -/
theorem c8_witness :
    handleCallTool "get_cpu_info" (fun _ => .ok (.vstr "cpu data")) =
      { content := [{ type := "text", text := renderResult (.vstr "cpu data") }],
        isError := false } ∧
    handleCallTool "frobnicate" (fun _ => .ok (.vstr "unused")) =
      { content := [{ type := "text", text := "Error: " ++ ("Unknown tool: " ++ "frobnicate") }],
        isError := true } :=
  ⟨(c8_dispatch_envelope "get_cpu_info" (fun _ => .ok (.vstr "cpu data"))).2.2.1
      (.vstr "cpu data") (by decide) rfl,
    (c8_dispatch_envelope "frobnicate" (fun _ => .ok (.vstr "unused"))).2.2.2.2 (by decide)⟩

/-- C9 (amended): a record whose source provides no name gets a synthesized
placeholder — `"Display <id>"` for the cross-platform strategy and
`"Monitor <id>"` for the Windows strategy, but `"Monitor <id+1>"` for the
macOS strategy, whose object literal increments the counter (`monitorId++`)
before the name property reads it. -/
theorem c9_name_placeholders (i : Nat) (d : SiDisplay) (wm : WmiMonitor) (mm : MacMonitor) :
    (d.model = "" →
      (siDisplayRecord i d).name = "Display " ++ toString ((siDisplayRecord i d).id)) ∧
    ((wmiMonitorRecord i wm).name = "Monitor " ++ toString ((wmiMonitorRecord i wm).id)) ∧
    (mm._name = "" →
      (macMonitorRecord i mm).name =
        "Monitor " ++ toString ((macMonitorRecord i mm).id + 1)) := by
  refine ⟨?_, rfl, ?_⟩
  · intro h
    simp [siDisplayRecord, h]
  · intro h
    simp [macMonitorRecord, h]

/-- Counterexample to C9 as stated: a macOS monitor without a name yields
the record with id 1 but placeholder name `"Monitor 2"`, not
`"Monitor 1"`. -/
theorem c9_counterexample :
    ((_getMacOSMonitors (.ok [{ spdisplays_ndrvs := [macNoName] }])).map
        (fun r => (r.id, r.name)) = [(1, "Monitor 2")]) ∧
    ("Monitor 2" : String) ≠ "Monitor 1" := by
  exact ⟨by decide, by decide⟩

/-- Witness for C9 at the nameless macOS monitor. -/
theorem c9_witness :
    (macMonitorRecord 0 macNoName).name =
      "Monitor " ++ toString ((macMonitorRecord 0 macNoName).id + 1) :=
  (c9_name_placeholders 0 siDell wmiBare macNoName).2.2 rfl

/-- C10: every sort key other than `"memory"` and `"name"` — including any
value outside the documented enum and the omitted default — takes the
shared `cpu`/default branch, so the whole result is identical to
`sort_by = "cpu"` and no failure occurs. -/
theorem c10_unknown_sort_defaults_to_cpu (tm : Int) (data : ProcessesData) (limit : Int)
    (sortBy : String) (h1 : sortBy ≠ "memory") (h2 : sortBy ≠ "name") :
    getRunningProcesses tm data limit sortBy = getRunningProcesses tm data limit "cpu" := by
  have hm : ("cpu" : String) ≠ "memory" := by decide
  have hn : ("cpu" : String) ≠ "name" := by decide
  have hpl : procLe sortBy = procLe "cpu" := by
    funext a b
    unfold procLe
    rw [if_neg h1, if_neg h2, if_neg hm, if_neg hn]
  unfold getRunningProcesses selectedProcs sortProcs
  rw [hpl]

/-- Witness for C10 at a concrete unrecognized sort key. -/
theorem c10_witness :
    getRunningProcesses 1000000 procsSample 5 "bogus" =
      getRunningProcesses 1000000 procsSample 5 "cpu" :=
  c10_unknown_sort_defaults_to_cpu 1000000 procsSample 5 "bogus" (by decide) (by decide)

end SystemInfoServer
